import Mathlib

/-!
Shallow embedding of the observability sandbox service (`src/app/main.go`)
and proofs of its specification's claims.

The program is a small HTTP service with two routes. `/healthz` returns a
constant response. `/work` simulates variable-latency work: it sleeps for a
random duration, opens two child spans under the request's root span, draws a
random outcome, and either fails with HTTP 500 or succeeds with HTTP 200,
emitting exactly one structured log record correlated to the trace.

Modelling choices:
- Time is a natural-number clock in milliseconds; `time.Sleep` advances it.
- Trace and span identifiers are natural numbers; the Go code renders them as
  hex strings via `.String()`, an injective encoding, so identifier equality
  in the model coincides with string equality in the code.
- The random draws (`rand.Intn(400)`, `rand.Intn(200)`, `rand.Float32()`) are
  explicit inputs to the handler, as a `Draws` record; `rand.Intn n` returns a
  value in `[0, n)` and `rand.Float32` a value in `[0, 1)`, captured by the
  well-formedness predicate `Draws.WF`.  The float comparison `< 0.2` is
  modelled over the rationals with threshold `1/5`.
- `otelhttp.NewHandler` (lines 33–34 of main.go) is modelled by the `serve*`
  wrappers: each request gets a fresh root span named after the route,
  installed as the active span for the wrapped handler.
- `http.Error(w, msg, code)` writes `msg` followed by a newline
  (`fmt.Fprintln`), modelled by `httpError`.
-/

/-- Severity of a structured log record (`slog.Error` / `slog.Info`). -/
inductive Severity where
  | info
  | error
  deriving DecidableEq, Repr

/-- The active trace context carried in the request context: the root span's
trace id and span id, as read by `trace.SpanFromContext`. -/
structure SpanCtx where
  traceId : Nat
  spanId : Nat
  deriving DecidableEq, Repr

/-- A finished telemetry span: name, identifiers, optional parent span id,
and its start and end timestamps (clock in milliseconds). -/
structure Span where
  name : String
  traceId : Nat
  spanId : Nat
  parentSpanId : Option Nat
  startTime : Nat
  endTime : Nat
  deriving DecidableEq, Repr

/-- A structured log record as emitted by `logger.With(...).Error/Info` in
`workHandler`: severity, message, the `trace_id` and `span_id` attributes
(identifiers, rendered as hex strings in the code), and the `latency_ms` and
`status` attributes. `latency_ms` is an `Int`, mirroring Go's
`time.Duration.Milliseconds() int64`. -/
structure LogRecord where
  severity : Severity
  message : String
  trace_id : Nat
  span_id : Nat
  latency_ms : Int
  status : Nat
  deriving DecidableEq, Repr

/-- An HTTP response: status code and body. -/
structure Response where
  status : Nat
  body : String
  deriving DecidableEq, Repr

/-- All telemetry emitted while serving one request. -/
structure Emitted where
  spans : List Span
  logs : List LogRecord
  deriving DecidableEq, Repr

/-- The random draws consumed by one `/work` request, in program order:
`rand.Intn(400)` for the simulated-work latency, `rand.Intn(200)` for the
cache-lookup delay, `rand.Float32()` for the failure outcome. -/
structure Draws where
  latDraw : Nat
  cacheDraw : Nat
  outcomeDraw : ℚ
  deriving DecidableEq, Repr

/-- Contract of the random sources: `rand.Intn n` yields a value in `[0, n)`
and `rand.Float32` yields a value in `[0, 1)`. -/
def Draws.WF (d : Draws) : Prop :=
  d.latDraw < 400 ∧ d.cacheDraw < 200 ∧ 0 ≤ d.outcomeDraw ∧ d.outcomeDraw < 1

instance (d : Draws) : Decidable d.WF := by
  unfold Draws.WF; infer_instance

/-- Model of Go's `http.Error(w, msg, code)`: it replies with the given status
code and writes `msg` followed by a newline (`fmt.Fprintln`). -/
def httpError (msg : String) (code : Nat) : Response :=
  ⟨code, msg ++ "\n"⟩

/-- Result of running `workHandler` inside its root span: the HTTP response,
the child spans it ended (in order), the one log record it emitted, and the
clock value when the handler returned. -/
structure WorkResult where
  resp : Response
  childSpans : List Span
  logRecord : LogRecord
  endClock : Nat
  deriving DecidableEq, Repr

/-- Shallow embedding of `workHandler` (main.go lines 102–139).
`root` is the active span context found in the request context (`trace.SpanFromContext`),
`d` the random draws, `t0` the clock at handler entry, `sid` the supply of
fresh span ids (the two child spans receive `sid` and `sid + 1`).

Line by line: the logger is bound to the root span's trace id and span id;
a child span "simulate_work" is started, the handler sleeps for the latency
draw, the span is ended; a child span "db_cache_lookup" is started (from the
same request context — the context returned by `Start` is discarded), the
handler sleeps for the cache draw, the span is ended; finally the outcome
draw decides between the error path (log at error severity, `http.Error`
with "Internal Server Error" and status 500) and the success path (log at
info severity, write "Work completed\n" with implicit status 200). -/
def workHandler (root : SpanCtx) (d : Draws) (t0 sid : Nat) : WorkResult :=
  let logTraceId := root.traceId
  let logSpanId := root.spanId
  let latency := d.latDraw
  let t1 := t0 + latency
  let childSpan : Span :=
    ⟨"simulate_work", root.traceId, sid, some root.spanId, t0, t1⟩
  let t2 := t1 + d.cacheDraw
  let cacheSpan : Span :=
    ⟨"db_cache_lookup", root.traceId, sid + 1, some root.spanId, t1, t2⟩
  if d.outcomeDraw < 1/5 then
    { resp := httpError "Internal Server Error" 500
      childSpans := [childSpan, cacheSpan]
      logRecord := ⟨.error, "request failed", logTraceId, logSpanId, (latency : Int), 500⟩
      endClock := t2 }
  else
    { resp := ⟨200, "Work completed\n"⟩
      childSpans := [childSpan, cacheSpan]
      logRecord := ⟨.info, "request succeeded", logTraceId, logSpanId, (latency : Int), 200⟩
      endClock := t2 }

/-- One `/work` request through the instrumented handler layer
(`otelhttp.NewHandler(http.HandlerFunc(workHandler), "work")`, main.go line 34):
a root span named "work" with trace id `tid` and span id `sid` is started and
installed as the active span, `workHandler` runs inside it with fresh span ids
from `sid + 1`, and the root span is ended when the handler returns.
Returns the HTTP response and all emitted telemetry (root span first). -/
def serveWork (tid sid t0 : Nat) (d : Draws) : Response × Emitted :=
  let root : SpanCtx := ⟨tid, sid⟩
  let r := workHandler root d t0 (sid + 1)
  let rootSpan : Span := ⟨"work", tid, sid, none, t0, r.endClock⟩
  (r.resp, ⟨rootSpan :: r.childSpans, [r.logRecord]⟩)

/-- Shallow embedding of `healthzHandler` (main.go lines 97–100): it
unconditionally writes status 200 and body "OK", touching no state. -/
def healthzHandler : Response :=
  ⟨200, "OK"⟩

/-- One `/healthz` request through the instrumented handler layer
(`otelhttp.NewHandler(http.HandlerFunc(healthzHandler), "healthz")`, main.go
line 33): a root span named "healthz" is started, the handler runs (it
sleeps for no time and emits no log record), and the span is ended. -/
def serveHealthz (tid sid t0 : Nat) : Response × Emitted :=
  let rootSpan : Span := ⟨"healthz", tid, sid, none, t0, t0⟩
  (healthzHandler, ⟨[rootSpan], []⟩)

/-- Configuration of one OTLP exporter: the collector endpoint it is bound to
and whether the transport is insecure. -/
structure ExporterConfig where
  endpoint : String
  insecure : Bool
  deriving DecidableEq, Repr

/-- The exporter bindings produced by `initOTel` (main.go lines 52–88). -/
structure OTelConfig where
  traceExporter : ExporterConfig
  metricExporter : ExporterConfig
  deriving DecidableEq, Repr

/-- Endpoint resolution in `initOTel` (main.go lines 52–56): the environment
input `OTEL_EXPORTER_OTLP_ENDPOINT`, defaulting to "otel-collector:4317" when
empty. -/
def resolveEndpoint (env : String) : String :=
  if env = "" then "otel-collector:4317" else env

/-- Shallow embedding of the exporter construction in `initOTel` (main.go
lines 52–88): both the trace exporter and the metric exporter are built with
`WithInsecure()` and `WithEndpoint(otelEndpoint)` for the single resolved
endpoint. -/
def initOTel (env : String) : OTelConfig :=
  let ep := resolveEndpoint env
  ⟨⟨ep, true⟩, ⟨ep, true⟩⟩

/-- Model of an SDK provider (`sdktrace.TracerProvider` /
`sdkmetric.MeterProvider`) as far as shutdown is concerned: the OpenTelemetry
SDK guards `Shutdown` with an internal stopped flag, so only the first call
flushes and closes the exporter and later calls return without doing work
(and without panicking). `flushCount` counts effective shutdowns. -/
structure Provider where
  stopped : Bool
  flushCount : Nat
  deriving DecidableEq, Repr

/-- `Provider.Shutdown`: flush and close on the first call, no-op afterwards. -/
def Provider.shutdownStep (p : Provider) : Provider :=
  if p.stopped then p else ⟨true, p.flushCount + 1⟩

/-- The process-wide telemetry state owned by `initOTel`: the two providers. -/
structure OTelState where
  tracerProvider : Provider
  meterProvider : Provider
  deriving DecidableEq, Repr

/-- The state right after `initOTel` returns: both providers live, nothing
flushed yet. -/
def initOTelState : OTelState :=
  ⟨⟨false, 0⟩, ⟨false, 0⟩⟩

/-- Shallow embedding of the cleanup function returned by `initOTel`
(main.go lines 91–94): it calls `tracerProvider.Shutdown(ctx)` then
`meterProvider.Shutdown(ctx)`. -/
def shutdownFn (s : OTelState) : OTelState :=
  { tracerProvider := s.tracerProvider.shutdownStep
    meterProvider := s.meterProvider.shutdownStep }

/-- C1 counterexample: the claim states the failure body is exactly
"Internal Server Error", but `http.Error` (used on the failure path of
`workHandler`, main.go line 129) appends a trailing newline, so on a failing
request (outcome draw 1/10 < 1/5) the status is 500 and the body differs
from "Internal Server Error". -/
theorem c1_counterexample :
    (1/10 : ℚ) < 1/5 ∧
    (serveWork 1 2 0 ⟨50, 30, 1/10⟩).1.status = 500 ∧
    (serveWork 1 2 0 ⟨50, 30, 1/10⟩).1.body ≠ "Internal Server Error" := by
  refine ⟨by norm_num, ?_, ?_⟩
  · simp only [serveWork, workHandler, httpError]; norm_num
  · simp only [serveWork, workHandler, httpError]; norm_num; decide

/-- C1 (amended): for every request to `/work`, if the outcome draw is below
1/5 the handler returns HTTP 500 with body "Internal Server Error\n" (the
trailing newline comes from `http.Error`), and otherwise HTTP 200 with body
"Work completed\n"; the dichotomy shows these are the only two outcomes. -/
theorem c1_work_outcomes (tid sid t0 : Nat) (d : Draws) :
    (d.outcomeDraw < 1/5 → (serveWork tid sid t0 d).1 = ⟨500, "Internal Server Error\n"⟩) ∧
    (¬ d.outcomeDraw < 1/5 → (serveWork tid sid t0 d).1 = ⟨200, "Work completed\n"⟩) := by
  refine ⟨fun h => ?_, fun h => ?_⟩ <;>
    simp only [serveWork, workHandler, httpError] <;> split_ifs <;> rfl

/-- C1 witness: a concrete successful request (outcome draw 3/4). -/
theorem c1_work_outcomes_witness :
    (serveWork 1 2 0 ⟨50, 30, 3/4⟩).1 = ⟨200, "Work completed\n"⟩ :=
  (c1_work_outcomes 1 2 0 ⟨50, 30, 3/4⟩).2 (by norm_num)

/-- C2: every span emitted while serving a `/work` request (the root "work"
span and the two child spans) carries the request's trace id, the one log
record's trace_id attribute is the same trace id, and in particular the root
span's trace id equals the log record's trace_id attribute. -/
theorem c2_trace_correlation (tid sid t0 : Nat) (d : Draws) :
    ((serveWork tid sid t0 d).2.spans.all (fun s => s.traceId == tid) = true) ∧
    ((serveWork tid sid t0 d).2.logs.all (fun r => r.trace_id == tid) = true) ∧
    ((serveWork tid sid t0 d).2.spans.head?.map Span.traceId =
      (serveWork tid sid t0 d).2.logs.head?.map LogRecord.trace_id) := by
  simp only [serveWork, workHandler, httpError]
  split_ifs <;> simp

/-- C3: for every `/work` request, the "simulate_work" span is open for
exactly the sampled latency (the clock advances only by the sleep between the
span's start and end), the log record's latency_ms attribute equals that
sampled value on both the success and the failure path, and the value is
below 400 ms. -/
theorem c3_latency_retained (tid sid t0 : Nat) (d : Draws) (h : d.latDraw < 400) :
    ((serveWork tid sid t0 d).2.spans[1]?.map (fun s => (s.name, s.endTime - s.startTime)) =
      some ("simulate_work", d.latDraw)) ∧
    ((serveWork tid sid t0 d).2.logs.map LogRecord.latency_ms = [(d.latDraw : Int)]) ∧
    d.latDraw < 400 := by
  refine ⟨?_, ?_, h⟩ <;>
    · simp only [serveWork, workHandler, httpError]
      split_ifs <;> simp

/-- C3 witness: latency draw 50 ms on a failing request (outcome draw 1/10):
the "simulate_work" span is open for 50 ms and latency_ms logs 50. -/
theorem c3_latency_retained_witness :
    ((serveWork 1 2 0 ⟨50, 30, 1/10⟩).2.spans[1]?.map (fun s => (s.name, s.endTime - s.startTime)) =
      some ("simulate_work", 50)) ∧
    ((serveWork 1 2 0 ⟨50, 30, 1/10⟩).2.logs.map LogRecord.latency_ms = [(50 : Int)]) ∧
    (50 : Nat) < 400 :=
  c3_latency_retained 1 2 0 ⟨50, 30, 1/10⟩ (by norm_num)

/-- C4 counterexample: `/healthz` does return 200 with body "OK", but the
claim's "produces no telemetry span" part is false: the route is wrapped in
`otelhttp.NewHandler` (main.go line 33), so each request emits a root span. -/
theorem c4_counterexample :
    (serveHealthz 1 2 0).1 = ⟨200, "OK"⟩ ∧
    (serveHealthz 1 2 0).2.spans ≠ [] := by
  simp [serveHealthz, healthzHandler]

/-- C4 (amended): every `/healthz` request returns HTTP 200 with body "OK",
unconditionally and independently of anything else (the response is a
constant in every parameter, so no prior `/work` outcome can influence it),
and it emits no log record and no business span — but it does emit exactly
one telemetry span, the root span "healthz" from the instrumentation
wrapper. -/
theorem c4_healthz_const (tid sid t0 : Nat) :
    (serveHealthz tid sid t0).1 = ⟨200, "OK"⟩ ∧
    (serveHealthz tid sid t0).2.logs = [] ∧
    ((serveHealthz tid sid t0).2.spans.map Span.name = ["healthz"]) := by
  simp [serveHealthz, healthzHandler]

/-- C5: every `/work` request emits exactly one log record; it is at error
severity with status 500 when the outcome draw is below 1/5 and at info
severity with status 200 otherwise, it carries the latency draw as
latency_ms, and its status attribute always equals the HTTP status returned
to the client. -/
theorem c5_single_log (tid sid t0 : Nat) (d : Draws) :
    ((serveWork tid sid t0 d).2.logs =
      [⟨if d.outcomeDraw < 1/5 then .error else .info,
        if d.outcomeDraw < 1/5 then "request failed" else "request succeeded",
        tid, sid, (d.latDraw : Int),
        (serveWork tid sid t0 d).1.status⟩]) ∧
    (serveWork tid sid t0 d).1.status = (if d.outcomeDraw < 1/5 then 500 else 200) := by
  simp only [serveWork, workHandler, httpError]
  split_ifs <;> simp

/-- C6: the success/failure decision of `/work` depends only on the outcome
draw: two runs with the same outcome draw but arbitrary (different) latency
and cache draws — including a latency draw of 0 — produce the same HTTP
status and body. -/
theorem c6_outcome_noninterference (tid1 sid1 t01 tid2 sid2 t02 : Nat) (d1 d2 : Draws)
    (h : d1.outcomeDraw = d2.outcomeDraw) :
    (serveWork tid1 sid1 t01 d1).1.status = (serveWork tid2 sid2 t02 d2).1.status ∧
    (serveWork tid1 sid1 t01 d1).1.body = (serveWork tid2 sid2 t02 d2).1.body := by
  simp only [serveWork, workHandler, httpError, h]
  split_ifs <;> simp

/-- C6 witness: a request with latency draw 0 and one with the extreme
latency draws, both with outcome draw 1/2, get the same response. -/
theorem c6_outcome_noninterference_witness :
    ((serveWork 1 2 0 ⟨0, 0, 1/2⟩).1.status = (serveWork 9 8 7 ⟨399, 199, 1/2⟩).1.status) ∧
    ((serveWork 1 2 0 ⟨0, 0, 1/2⟩).1.body = (serveWork 9 8 7 ⟨399, 199, 1/2⟩).1.body) :=
  c6_outcome_noninterference 1 2 0 9 8 7 ⟨0, 0, 1/2⟩ ⟨399, 199, 1/2⟩ rfl

/-- C7: when the collector-endpoint environment input is empty both exporters
are bound to the default "otel-collector:4317"; when it is non-empty both are
bound to the supplied value; in all cases the two exporters share one
endpoint and both use an insecure transport. -/
theorem c7_endpoint_binding (env : String) :
    (env = "" → initOTel env = ⟨⟨"otel-collector:4317", true⟩, ⟨"otel-collector:4317", true⟩⟩) ∧
    (env ≠ "" → initOTel env = ⟨⟨env, true⟩, ⟨env, true⟩⟩) ∧
    (initOTel env).traceExporter.endpoint = (initOTel env).metricExporter.endpoint ∧
    (initOTel env).traceExporter.insecure = true ∧
    (initOTel env).metricExporter.insecure = true := by
  by_cases h : env = "" <;> simp [initOTel, resolveEndpoint, h]

/-- C7 witness: the default endpoint for an unset input, and a supplied
endpoint overriding it. -/
theorem c7_endpoint_binding_witness :
    initOTel "" = ⟨⟨"otel-collector:4317", true⟩, ⟨"otel-collector:4317", true⟩⟩ ∧
    initOTel "collector.example:4317" =
      ⟨⟨"collector.example:4317", true⟩, ⟨"collector.example:4317", true⟩⟩ :=
  ⟨(c7_endpoint_binding "").1 rfl,
   (c7_endpoint_binding "collector.example:4317").2.1 (by decide)⟩

/-- C8: the shutdown function returned by `initOTel` is idempotent — a second
call leaves the state unchanged — and starting from the freshly initialized
state, one call (and equally two calls) flushes and closes each provider
exactly once, so repeated calls neither panic nor double-free. -/
theorem c8_shutdown_idempotent :
    (∀ s : OTelState, shutdownFn (shutdownFn s) = shutdownFn s) ∧
    shutdownFn initOTelState = ⟨⟨true, 1⟩, ⟨true, 1⟩⟩ ∧
    shutdownFn (shutdownFn initOTelState) = ⟨⟨true, 1⟩, ⟨true, 1⟩⟩ := by
  refine ⟨fun s => ?_, by decide, by decide⟩
  obtain ⟨⟨b1, n1⟩, ⟨b2, n2⟩⟩ := s
  cases b1 <;> cases b2 <;> simp [shutdownFn, Provider.shutdownStep, initOTelState]

/-- C9: for a `/work` request with well-formed draws, the "simulate_work"
span is open a whole number of milliseconds in [0, 400), the
"db_cache_lookup" span a whole number in [0, 200), and the logged latency_ms
is exactly the integer latency draw, lying in [0, 400). -/
theorem c9_integer_millis (tid sid t0 : Nat) (d : Draws) (h : d.WF) :
    ((serveWork tid sid t0 d).2.spans[1]?.map (fun s => s.endTime - s.startTime) =
      some d.latDraw) ∧
    ((serveWork tid sid t0 d).2.spans[2]?.map (fun s => s.endTime - s.startTime) =
      some d.cacheDraw) ∧
    d.latDraw < 400 ∧ d.cacheDraw < 200 ∧
    ((serveWork tid sid t0 d).2.logs.map LogRecord.latency_ms = [(d.latDraw : Int)]) ∧
    (0 : Int) ≤ (d.latDraw : Int) ∧ (d.latDraw : Int) < 400 := by
  obtain ⟨h1, h2, -, -⟩ := h
  refine ⟨?_, ?_, h1, h2, ?_, Int.ofNat_nonneg _, by exact_mod_cast h1⟩ <;>
    · simp only [serveWork, workHandler, httpError]
      split_ifs <;> simp

/-- C9 witness: the extreme draws 399 and 199. -/
theorem c9_integer_millis_witness :
    ((serveWork 1 2 0 ⟨399, 199, 1/2⟩).2.spans[1]?.map (fun s => s.endTime - s.startTime) =
      some 399) ∧
    ((serveWork 1 2 0 ⟨399, 199, 1/2⟩).2.spans[2]?.map (fun s => s.endTime - s.startTime) =
      some 199) ∧
    (399 : Nat) < 400 ∧ (199 : Nat) < 200 ∧
    ((serveWork 1 2 0 ⟨399, 199, 1/2⟩).2.logs.map LogRecord.latency_ms = [(399 : Int)]) ∧
    (0 : Int) ≤ ((399 : Nat) : Int) ∧ ((399 : Nat) : Int) < 400 :=
  c9_integer_millis 1 2 0 ⟨399, 199, 1/2⟩ (by constructor <;> norm_num [Draws.WF])

/-- C10: the log record of a `/work` request carries the root span's span id
and trace id (captured from the request context at handler entry); the root
span is the first emitted span and has that span id; and every child span is
parented directly to the root span (the contexts returned when starting the
children are discarded, so a child is never the active span) and has a span
id different from the one in the log record. -/
theorem c10_log_ids_root (tid sid t0 : Nat) (d : Draws) :
    ((serveWork tid sid t0 d).2.logs.map LogRecord.span_id = [sid]) ∧
    ((serveWork tid sid t0 d).2.logs.map LogRecord.trace_id = [tid]) ∧
    ((serveWork tid sid t0 d).2.spans.head?.map Span.spanId = some sid) ∧
    ((serveWork tid sid t0 d).2.spans.tail.all
      (fun s => (s.parentSpanId == some sid) && (s.spanId != sid)) = true) := by
  refine ⟨?_, ?_, ?_, ?_⟩ <;>
    · simp only [serveWork, workHandler, httpError]
      split_ifs <;> simp <;> omega
